import Mathlib

/-!
Shallow embedding of `create_base_dati.py`: a Finnhub HTTP client
(`Finnhub._handle_response`, `Finnhub._merge_two_dicts`, the query methods),
the four-phase `Finnhub.store_data` orchestration, and the SQLite layer
(`FinnhubDB.create_tables`, the insert methods).

JSON values returned by the vendor are modelled by the inductive `Json`
(numbers as rationals).  Python exceptions that the program can raise or
catch are modelled by `PyExn`; fallible Python expressions are embedded as
`Except PyExn` computations.  Wall-clock effects (`time.sleep`) are modelled
by counting sleeps; `time.strftime("%Y-%m-%d", time.localtime t)` depends on
the machine's time zone and is therefore a parameter `localDate : Int → String`
of the orchestration functions.  Each HTTP endpoint is modelled as an oracle
function giving the outcome of each call; in Phases 1 and 2, where the code
may call the same endpoint twice for one constituent, the oracle also takes
the attempt number.
-/

/-- A parsed JSON value (the result of `response.json()`).  Numbers are
modelled as rationals. -/
inductive Json where
  | null : Json
  | bool : Bool → Json
  | num : Rat → Json
  | str : String → Json
  | arr : List Json → Json
  | obj : List (String × Json) → Json

/-- The Python exceptions relevant to this program. -/
inductive PyExn where
  | api : Nat → Json → PyExn        -- FinnhubAPIException (status code, message)
  | request : String → PyExn        -- FinnhubRequestException (message)
  | keyError : String → PyExn       -- KeyError from `d[k]` on a dict missing `k`
  | indexError : PyExn              -- IndexError from `l[k]` out of range
  | typeError : PyExn               -- TypeError (e.g. `x in 5`, `5["k"]`)
  | valueError : PyExn              -- ValueError (e.g. `int("abc")`)

/-- `pfxOf pat s` : `pat` is a leading segment of `s` (on char lists). -/
def pfxOf : List Char → List Char → Bool
  | [], _ => true
  | _ :: _, [] => false
  | c :: cs, d :: ds => c == d && pfxOf cs ds

/-- `hasSubList pat s` : `pat` occurs contiguously inside `s`. -/
def hasSubList (pat : List Char) : List Char → Bool
  | [] => pfxOf pat []
  | d :: ds => pfxOf pat (d :: ds) || hasSubList pat ds

/-- Python's substring test `pat in s` on strings. -/
def strContains (s pat : String) : Bool :=
  hasSubList pat.toList s.toList

/-- Python subscript `j[k]` with a string key: dict lookup (KeyError when the
key is absent), TypeError on every non-dict value. -/
def pySubscript (j : Json) (k : String) : Except PyExn Json :=
  match j with
  | .obj kvs =>
    match kvs.lookup k with
    | some v => .ok v
    | none => .error (.keyError k)
  | _ => .error .typeError

/-- Python `len(j)`: length of a list, string or dict, TypeError otherwise. -/
def pyLen (j : Json) : Except PyExn Nat :=
  match j with
  | .arr xs => .ok xs.length
  | .str s => .ok s.length
  | .obj kvs => .ok kvs.length
  | _ => .error .typeError

/-- Python subscript `j[k]` with a non-negative integer index on a list
(IndexError out of range, TypeError on non-sequences). -/
def pyIndex (j : Json) (k : Nat) : Except PyExn Json :=
  match j with
  | .arr xs => if h : k < xs.length then .ok (xs.get ⟨k, h⟩) else .error .indexError
  | _ => .error .typeError

/-- Python iteration `for x in j`: elements of a list, keys of a dict,
one-character strings of a string, TypeError otherwise. -/
def pyIter (j : Json) : Except PyExn (List Json) :=
  match j with
  | .arr xs => .ok xs
  | .obj kvs => .ok (kvs.map fun kv => .str kv.1)
  | .str s => .ok (s.toList.map fun c => .str (String.singleton c))
  | _ => .error .typeError

/-- Truncation toward zero, Python's `int()` on a number. -/
def pyTrunc (q : Rat) : Int :=
  Int.tdiv q.num (q.den : Int)

/-- Python `int(j)`: numbers truncate toward zero, booleans give 0/1,
strings must parse as an integer (ValueError otherwise), everything else is
a TypeError. -/
def pyToInt (j : Json) : Except PyExn Int :=
  match j with
  | .num q => .ok (pyTrunc q)
  | .bool b => .ok (if b then 1 else 0)
  | .str s =>
    match s.toInt? with
    | some n => .ok n
    | none => .error .valueError
  | _ => .error .typeError

/-- Python membership `needle in j`: key test on dicts, element equality on
lists, substring test on strings, TypeError on every other value. -/
def pyContains (needle : String) (j : Json) : Except PyExn Bool :=
  match j with
  | .obj kvs => .ok (kvs.lookup needle).isSome
  | .arr xs => .ok (xs.any fun x => match x with | .str s => s == needle | _ => false)
  | .str s => .ok (strContains s needle)
  | _ => .error .typeError

/-- Sequential effectful map over a list, stopping at the first exception:
the loop `for x in l: out.append(f(x))`. -/
def pyMapM {α β : Type} (f : α → Except PyExn β) : List α → Except PyExn (List β)
  | [] => .ok []
  | x :: xs =>
    match f x with
    | .error e => .error e
    | .ok y =>
      match pyMapM f xs with
      | .error e => .error e
      | .ok ys => .ok (y :: ys)

/-! ## The HTTP client (`Finnhub`) -/

/-- One HTTP response as the client observes it: the `ok` flag, status code,
`Content-Type` header (empty string when absent), body text, and the result
of `response.json()` (`none` when the body is not parseable JSON). -/
structure HttpResponse where
  ok : Bool
  status_code : Nat
  contentType : String
  text : String
  jsonBody : Option Json

/-- The state of a constructed `FinnhubAPIException`: `code` is always set
to 0, `message` as computed by `__init__`, `status_code` copied from the
response. -/
structure FinnhubAPIException where
  code : Nat
  message : Json
  status_code : Nat

/-- The `message` computed by `FinnhubAPIException.__init__`: the body's
`"error"` field when the parsed body has one, a fixed fallback when the
parsed body lacks it, a fallback naming the raw text when the body is not
parseable JSON.  Python's `"error" not in json_response` and
`json_response["error"]` both raise TypeError on non-container values, so
the computation is fallible. -/
def apiExceptionMessage (r : HttpResponse) : Except PyExn Json :=
  match r.jsonBody with
  | none => .ok (.str ("JSON error message from Finnhub: " ++ r.text))
  | some j =>
    match pyContains "error" j with
    | .error e => .error e
    | .ok false => .ok (.str "Wrong json format from FinnhubAPI")
    | .ok true => pySubscript j "error"

/-- Construction of `FinnhubAPIException(response)`; an exception escaping
`__init__` itself (TypeError on a non-container JSON body) is the error
case. -/
def buildAPIException (r : HttpResponse) : Except PyExn FinnhubAPIException :=
  match apiExceptionMessage r with
  | .error e => .error e
  | .ok m => .ok ⟨0, m, r.status_code⟩

/-- What the `return`ed value of `_handle_response` is: parsed JSON or raw
text. -/
inductive RetValue where
  | json : Json → RetValue
  | text : String → RetValue

/-- The observable outcome of `Finnhub._handle_response`. -/
inductive HandleResult where
  | value : RetValue → HandleResult              -- normal return
  | apiError : FinnhubAPIException → HandleResult -- raise FinnhubAPIException
  | requestError : String → HandleResult          -- raise FinnhubRequestException
  | pyError : PyExn → HandleResult                -- any other uncaught exception

/-- `Finnhub._handle_response`: non-ok responses raise `FinnhubAPIException`
(built from the response); ok responses dispatch on the `Content-Type`
header by substring test, returning parsed JSON for `application/json`
(`FinnhubRequestException` when the body does not parse), the raw text for
`text/csv` and `text/plain`, and raising `FinnhubRequestException` for any
other content type. -/
def handle_response (r : HttpResponse) : HandleResult :=
  if r.ok = false then
    match buildAPIException r with
    | .ok e => .apiError e
    | .error e => .pyError e
  else if strContains r.contentType "application/json" then
    match r.jsonBody with
    | some j => .value (.json j)
    | none => .requestError ("Invalid Response: " ++ r.text)
  else if strContains r.contentType "text/csv" then
    .value (.text r.text)
  else if strContains r.contentType "text/plain" then
    .value (.text r.text)
  else
    .requestError ("Invalid Response: " ++ r.text)

/-- `Finnhub._merge_two_dicts(first, second)` = `first.copy()` then
`update(second)`: a lookup in the result finds `second`'s entry when it has
one and `first`'s otherwise.  Dicts are modelled extensionally as partial
maps from keys. -/
def merge_two_dicts {V : Type} (first second : String → Option V) : String → Option V :=
  fun k => match second k with
    | some v => some v
    | none => first k

/-- A dict literal, as a partial map. -/
def dictOfPairs {V : Type} (ps : List (String × V)) : String → Option V :=
  fun k => ps.lookup k

/-- The query-parameter dict built by `Finnhub.stock_candles`: the four
required fields merged with the caller's `**kwargs`. -/
def stock_candles_params {V : Type} (symbol resolution from_ to_ : V)
    (kwargs : String → Option V) : String → Option V :=
  merge_two_dicts
    (dictOfPairs [("symbol", symbol), ("resolution", resolution), ("from", from_), ("to", to_)])
    kwargs

/-! ## The orchestration (`Finnhub.store_data`) -/

/-- The twelve profile fields read, in source order, when building one
stock-anagraphic row in Phase 1. -/
def profileFields : List String :=
  ["country", "currency", "exchange", "finnhubIndustry", "ipo", "logo",
   "marketCapitalization", "name", "phone", "shareOutstanding", "ticker", "weburl"]

/-- `sp == {}` in Python: equality with the empty dict. -/
def isEmptyDict : Json → Bool
  | .obj [] => true
  | _ => false

/-- The Phase 1 body applied to one fetched profile `sp`: `sp == {}` is
skipped (`none`), otherwise the row
`(sp['country'], ..., sp['weburl'])` is built field by field in source
order, raising KeyError at the first absent field. -/
def profileRow (sp : Json) : Except PyExn (Option (List Json)) :=
  if isEmptyDict sp then .ok none
  else
    match pyMapM (pySubscript sp) profileFields with
    | .error e => .error e
    | .ok row => .ok (some row)

/-- One attempt of the Phase 1 `try` body for constituent `i`: fetch the
profile (attempt `n` of the oracle) and build the row.  Exceptions from the
fetch and from the row construction both escape the attempt (the `except:`
around the first attempt is bare). -/
def phase1Attempt (profile : Nat → Except PyExn Json) (n : Nat) :
    Except PyExn (Option (List Json)) :=
  match profile n with
  | .error e => .error e
  | .ok sp => profileRow sp

/-- Phase 1 treatment of one constituent: try the body once; on any
exception sleep 80 seconds and run the body a second time, whose outcome —
success or exception — is final.  Returns the result together with the
number of fetch calls made and the number of sleeps performed. -/
def phase1Step (profile : Nat → Except PyExn Json) :
    Except PyExn (Option (List Json)) × Nat × Nat :=
  match phase1Attempt profile 0 with
  | .ok r => (.ok r, 1, 0)
  | .error _ => (phase1Attempt profile 1, 2, 1)

/-- Phase 1 over the whole constituent list: rows of non-empty profiles in
order; the first unrecovered exception aborts. -/
def phase1 (profile : Json → Nat → Except PyExn Json) :
    List Json → Except PyExn (List (List Json))
  | [] => .ok []
  | i :: rest =>
    match (phase1Step (profile i)).1 with
    | .error e => .error e
    | .ok r =>
      match phase1 profile rest with
      | .error e => .error e
      | .ok rs => .ok (r.toList ++ rs)

/-- One stock-price row of Phase 2:
`(i, c[k], h[k], l[k], o[k], strftime(localtime(int(t[k]))), v[k])`. -/
def StockPriceRow : Type :=
  Json × Json × Json × Json × Json × String × Json

/-- The `k`-th Phase 2 row for constituent `i` from candle response
`stock`: subscripts evaluated left to right as in the source tuple, the
time entry converted with `int` and formatted with the time-zone-dependent
`localDate`. -/
def candleRow (localDate : Int → String) (i : Json) (stock : Json) (k : Nat) :
    Except PyExn StockPriceRow := do
  let c ← pySubscript stock "c"
  let ck ← pyIndex c k
  let h ← pySubscript stock "h"
  let hk ← pyIndex h k
  let l ← pySubscript stock "l"
  let lk ← pyIndex l k
  let o ← pySubscript stock "o"
  let ok_ ← pyIndex o k
  let t ← pySubscript stock "t"
  let tk ← pyIndex t k
  let tn ← pyToInt tk
  let v ← pySubscript stock "v"
  let vk ← pyIndex v k
  pure (i, ck, hk, lk, ok_, localDate tn, vk)

/-- The Phase 2 expansion loop for one constituent:
`for k in range(0, len(stock['c'])): prices.append(...)`. -/
def candleRows (localDate : Int → String) (i : Json) (stock : Json) :
    Except PyExn (List StockPriceRow) := do
  let c ← pySubscript stock "c"
  let n ← pyLen c
  pyMapM (candleRow localDate i stock) (List.range n)

/-- The Phase 2 fetch for one constituent: try once; on any exception sleep
80 seconds and fetch a second time, whose outcome is final.  Returns the
result with the number of fetch calls and sleeps. -/
def fetchWithRetry (fetch : Nat → Except PyExn Json) :
    Except PyExn Json × Nat × Nat :=
  match fetch 0 with
  | .ok j => (.ok j, 1, 0)
  | .error _ => (fetch 1, 2, 1)

/-- Phase 2 over the whole constituent list: fetch candles with the single
retry, then expand (the expansion loop is outside the `try`, so its
exceptions are never retried). -/
def phase2 (candles : Json → Nat → Except PyExn Json) (localDate : Int → String) :
    List Json → Except PyExn (List StockPriceRow)
  | [] => .ok []
  | i :: rest =>
    match (fetchWithRetry (candles i)).1 with
    | .error e => .error e
    | .ok stock =>
      match candleRows localDate i stock with
      | .error e => .error e
      | .ok rows =>
        match phase2 candles localDate rest with
        | .error e => .error e
        | .ok rest_rows => .ok (rows ++ rest_rows)

/-- One FX-anagraphic row:
`(fx['description'], fx['displaySymbol'], fx['symbol'])`. -/
def FxAnaRow : Type := Json × Json × Json

/-- Row construction for one FX symbol descriptor in Phase 3. -/
def fxRow (fx : Json) : Except PyExn FxAnaRow := do
  let d ← pySubscript fx "description"
  let ds ← pySubscript fx "displaySymbol"
  let s ← pySubscript fx "symbol"
  pure (d, ds, s)

/-- Phase 3: fetch the exchange list, and for each exchange fetch its
symbol list and append one row per symbol.  There is no `try` here: any
exception aborts immediately. -/
def phase3 (forex_exchanges : Except PyExn Json)
    (fx_symbols : Json → Except PyExn Json) : Except PyExn (List FxAnaRow) :=
  match forex_exchanges with
  | .error e => .error e
  | .ok exchanges =>
    match pyIter exchanges with
    | .error e => .error e
    | .ok exs => phase3Loop fx_symbols exs
where
  /-- The loop `for exch in exchanges`. -/
  phase3Loop (fx_symbols : Json → Except PyExn Json) :
      List Json → Except PyExn (List FxAnaRow)
    | [] => .ok []
    | exch :: rest =>
      match fx_symbols exch with
      | .error e => .error e
      | .ok currencies =>
        match pyIter currencies with
        | .error e => .error e
        | .ok cs =>
          match pyMapM fxRow cs with
          | .error e => .error e
          | .ok rows =>
            match phase3Loop fx_symbols rest with
            | .error e => .error e
            | .ok rest_rows => .ok (rows ++ rest_rows)

/-- Python `j == f` for a JSON value against the string `f`: true exactly
on an equal JSON string, false on every other value. -/
def jsonEqStr (j : Json) (f : String) : Bool :=
  match j with
  | .str s => s == f
  | _ => false

/-- The Phase 4 match condition `j[1] == f and 'FOREX' in j[2]`, with
Python short-circuiting: the membership test (which can raise TypeError on
a non-container vendor symbol) only runs when the display symbol equals the
requested pair. -/
def fxMatch (f : String) (j : FxAnaRow) : Except PyExn Bool :=
  if jsonEqStr j.2.1 f then pyContains "FOREX" j.2.2 else .ok false

/-- Boolean reading of `fxMatch`: true exactly when the condition evaluates
cleanly to true. -/
def fxMatchB (f : String) (j : FxAnaRow) : Bool :=
  match fxMatch f j with
  | .ok true => true
  | _ => false

/-- One FX-price row of Phase 4: `(f, c[k], h[k], l[k], o[k], date)` — no
volume column. -/
def FxPriceRow : Type := String × Json × Json × Json × Json × String

/-- The `k`-th Phase 4 row for requested pair `f` from candle response
`hist`. -/
def fxCandleRow (localDate : Int → String) (f : String) (hist : Json) (k : Nat) :
    Except PyExn FxPriceRow := do
  let c ← pySubscript hist "c"
  let ck ← pyIndex c k
  let h ← pySubscript hist "h"
  let hk ← pyIndex h k
  let l ← pySubscript hist "l"
  let lk ← pyIndex l k
  let o ← pySubscript hist "o"
  let ok_ ← pyIndex o k
  let t ← pySubscript hist "t"
  let tk ← pyIndex t k
  let tn ← pyToInt tk
  pure (f, ck, hk, lk, ok_, localDate tn)

/-- The Phase 4 expansion loop for one fetched candle series. -/
def fxCandleRows (localDate : Int → String) (f : String) (hist : Json) :
    Except PyExn (List FxPriceRow) := do
  let c ← pySubscript hist "c"
  let n ← pyLen c
  pyMapM (fxCandleRow localDate f hist) (List.range n)

/-- Phase 4 inner loop for one requested pair `f` over the collected
FX-anagraphic rows: every row satisfying the match condition triggers one
candle fetch (keyed by the row's vendor symbol `j[2]`, which the source
formats into the `symbol` query parameter) and one expansion.  Returns the
accumulated price rows together with the list of vendor symbols fetched,
in order. -/
def phase4Pair (fx_candles : Json → Except PyExn Json) (localDate : Int → String)
    (f : String) : List FxAnaRow → Except PyExn (List FxPriceRow × List Json)
  | [] => .ok ([], [])
  | j :: rest =>
    match fxMatch f j with
    | .error e => .error e
    | .ok false => phase4Pair fx_candles localDate f rest
    | .ok true =>
      match fx_candles j.2.2 with
      | .error e => .error e
      | .ok hist =>
        match fxCandleRows localDate f hist with
        | .error e => .error e
        | .ok rows =>
          match phase4Pair fx_candles localDate f rest with
          | .error e => .error e
          | .ok r => .ok (rows ++ r.1, j.2.2 :: r.2)

/-- Phase 4 outer loop over the requested currency pairs. -/
def phase4 (fx_candles : Json → Except PyExn Json) (localDate : Int → String)
    (ana : List FxAnaRow) : List String → Except PyExn (List FxPriceRow)
  | [] => .ok []
  | f :: rest =>
    match phase4Pair fx_candles localDate f ana with
    | .error e => .error e
    | .ok r =>
      match phase4 fx_candles localDate ana rest with
      | .error e => .error e
      | .ok rest_rows => .ok (r.1 ++ rest_rows)

/-! ## The persistence layer (`FinnhubDB`) -/

/-- One stock-anagraphic row as inserted (twelve profile fields). -/
def AnagRow : Type := List Json

/-- The four tables of the SQLite store.  A table is `none` when it does
not exist and `some rows` when it exists with the given inserted rows (the
surrogate `id` primary key is implicit in the position). -/
structure DBState where
  anagraphic_table : Option (List AnagRow)
  stock_historical_data : Option (List StockPriceRow)
  fxanagraphic_data : Option (List FxAnaRow)
  fxhistorical_data : Option (List FxPriceRow)

/-- `CREATE TABLE IF NOT EXISTS`: an absent table becomes empty, an
existing table is untouched. -/
def createIfAbsent {ρ : Type} (t : Option (List ρ)) : Option (List ρ) :=
  some (t.getD [])

/-- `DELETE FROM` on a table (which `create_tables` has just ensured
exists): all rows removed. -/
def clearTable {ρ : Type} (t : Option (List ρ)) : Option (List ρ) :=
  t.map fun _ => []

/-- `FinnhubDB.create_tables`: create each of the four tables if absent,
then unconditionally delete every row of each. -/
def create_tables (db : DBState) : DBState :=
  let db := { db with anagraphic_table := createIfAbsent db.anagraphic_table }
  let db := { db with stock_historical_data := createIfAbsent db.stock_historical_data }
  let db := { db with fxanagraphic_data := createIfAbsent db.fxanagraphic_data }
  let db := { db with fxhistorical_data := createIfAbsent db.fxhistorical_data }
  let db := { db with anagraphic_table := clearTable db.anagraphic_table }
  let db := { db with stock_historical_data := clearTable db.stock_historical_data }
  let db := { db with fxanagraphic_data := clearTable db.fxanagraphic_data }
  { db with fxhistorical_data := clearTable db.fxhistorical_data }

/-- `FinnhubDB.insert_stock_anagraphic`: bulk append. -/
def insert_stock_anagraphic (db : DBState) (rows : List AnagRow) : DBState :=
  { db with anagraphic_table := db.anagraphic_table.map (· ++ rows) }

/-- `FinnhubDB.insert_stock_prices`: bulk append. -/
def insert_stock_prices (db : DBState) (rows : List StockPriceRow) : DBState :=
  { db with stock_historical_data := db.stock_historical_data.map (· ++ rows) }

/-- `FinnhubDB.insert_fxanagraphic_data`: bulk append. -/
def insert_fxanagraphic_data (db : DBState) (rows : List FxAnaRow) : DBState :=
  { db with fxanagraphic_data := db.fxanagraphic_data.map (· ++ rows) }

/-- `FinnhubDB.insert_historical_data`: bulk append. -/
def insert_historical_data (db : DBState) (rows : List FxPriceRow) : DBState :=
  { db with fxhistorical_data := db.fxhistorical_data.map (· ++ rows) }

/-! ## The full run -/

/-- The outcomes of the vendor endpoints for one run.  Each call site in
`store_data` is mapped to one oracle field; where the source may call the
same endpoint twice for one symbol (the Phase 1 and Phase 2 retries) the
oracle also takes the attempt number.  The `from`/`to` Unix-timestamp query
parameters, the resolution, and the token are fixed for the whole run and
are absorbed into the oracle. -/
structure ApiOracle where
  index_constituents : String → Except PyExn Json
  stock_profile : Json → Nat → Except PyExn Json
  stock_candles : Json → Nat → Except PyExn Json
  forex_exchanges : Except PyExn Json
  fx_symbols : Json → Except PyExn Json
  fx_candles : Json → Except PyExn Json

/-- Run a fallible phase against the store: an exception leaves the store
as it is and aborts the run with that exception. -/
def runPhase {α : Type} (db : DBState) (r : Except PyExn α)
    (k : α → DBState × Option PyExn) : DBState × Option PyExn :=
  match r with
  | .error e => (db, some e)
  | .ok a => k a

/-- `Finnhub.store_data`: the four fetch-reshape-insert phases in order.
Returns the final store contents and the exception that aborted the run,
if any; inserts already committed stay committed when a later phase
aborts. -/
def store_data (api : ApiOracle) (localDate : Int → String) (db : DBState)
    (stockmarket : String) (fxcurr : List String) : DBState × Option PyExn :=
  runPhase db (api.index_constituents ("^" ++ stockmarket)) fun indx =>
  runPhase db (pySubscript indx "constituents") fun cj =>
  runPhase db (pyIter cj) fun constituents =>
  runPhase db (phase1 api.stock_profile constituents) fun stockprofile =>
  let db := insert_stock_anagraphic db stockprofile
  runPhase db (phase2 api.stock_candles localDate constituents) fun prices =>
  let db := insert_stock_prices db prices
  runPhase db (phase3 api.forex_exchanges api.fx_symbols) fun fxanagraphic_data =>
  let db := insert_fxanagraphic_data db fxanagraphic_data
  runPhase db (phase4 api.fx_candles localDate fxanagraphic_data fxcurr) fun fxprices =>
  (insert_historical_data db fxprices, none)

/-! ## Concrete instances used in the evaluation theorems -/

/-- The integer reading of a JSON number (0 on other values); agrees with
`pyToInt` on numbers. -/
def jsonTrunc (x : Json) : Int :=
  match x with
  | .num q => pyTrunc q
  | _ => 0

/-- A non-success response whose body parses to the bare JSON number 5. -/
def numBodyResponse : HttpResponse :=
  ⟨false, 500, "application/json", "5", some (.num 5)⟩

/-- A non-success response with an unparseable plain-text body. -/
def textBodyResponse : HttpResponse :=
  ⟨false, 404, "text/plain", "oops", none⟩

/-- A success response carrying the empty JSON array. -/
def okJsonResponse : HttpResponse :=
  ⟨true, 200, "application/json", "[]", some (.arr [])⟩

/-- A profile oracle that always answers with the empty dict. -/
def emptyProfileOracle : Json → Nat → Except PyExn Json :=
  fun _ _ => .ok (.obj [])

/-- A profile oracle that always answers with a non-empty dict lacking the
`country` field. -/
def gappyProfileOracle : Json → Nat → Except PyExn Json :=
  fun _ _ => .ok (.obj [("ticker", .str "A")])

/-- A two-day candle response with all six parallel arrays. -/
def twoDayCandles : Json :=
  .obj [("c", .arr [.num 1, .num 2]), ("h", .arr [.num 3, .num 4]),
        ("l", .arr [.num 5, .num 6]), ("o", .arr [.num 7, .num 8]),
        ("s", .str "ok"), ("t", .arr [.num 0, .num 86400]),
        ("v", .arr [.num 9, .num 10])]

/-- A candle oracle that always answers `twoDayCandles`. -/
def twoDayCandleOracle : Json → Nat → Except PyExn Json :=
  fun _ _ => .ok twoDayCandles

/-- A date formatter ignoring its argument (stands in for the local-time
`strftime`). -/
def constDate : Int → String :=
  fun _ => "1970-01-01"

/-- A profile oracle failing on attempt 0 and empty on the retry. -/
def failOnceOracle : Nat → Except PyExn Json :=
  fun n => if n = 0 then .error .typeError else .ok (.obj [])

/-- A per-symbol oracle that always raises. -/
def alwaysFailOracle : Json → Nat → Except PyExn Json :=
  fun _ _ => .error .valueError

/-- An API oracle whose Phase 3 exchange-list fetch raises, everything
before succeeding trivially (no constituents). -/
def phase3FailingApi : ApiOracle :=
  { index_constituents := fun _ => .ok (.obj [("constituents", .arr [])])
    stock_profile := fun _ _ => .ok (.obj [])
    stock_candles := fun _ _ => .ok twoDayCandles
    forex_exchanges := .error .typeError
    fx_symbols := fun _ => .ok (.arr [])
    fx_candles := fun _ => .ok (.obj []) }

/-- An empty store with all four tables present. -/
def emptyDB : DBState :=
  ⟨some [], some [], some [], some []⟩

/-- One FX-anagraphic row that does not match the pair `EUR/USD`. -/
def yenAnaRow : FxAnaRow :=
  (.str "USDJPY", .str "USD/JPY", .str "OANDA:FOREX:USD_JPY")

/-- One FX-anagraphic row matching the pair `EUR/USD`. -/
def euroAnaRow : FxAnaRow :=
  (.str "EURUSD", .str "EUR/USD", .str "FOREX:EUR_USD")

/-- A one-day FX candle response. -/
def oneDayFxCandles : Json :=
  .obj [("c", .arr [.num 1]), ("h", .arr [.num 3]), ("l", .arr [.num 5]),
        ("o", .arr [.num 7]), ("s", .str "ok"), ("t", .arr [.num 0])]

/-- An FX candle oracle that always answers `oneDayFxCandles`. -/
def oneDayFxOracle : Json → Except PyExn Json :=
  fun _ => .ok oneDayFxCandles

/-- The Phase 4 rows produced from `oneDayFxCandles` for `EUR/USD` under
`constDate`. -/
def oneDayFxRows : List FxPriceRow :=
  [("EUR/USD", .num 1, .num 3, .num 5, .num 7, "1970-01-01")]

/-! ## Helper lemmas -/

/-- If `f` succeeds as `g` on every element, `pyMapM f` returns the map. -/
theorem pyMapM_ok_of_forall {α β : Type} (f : α → Except PyExn β) (g : α → β)
    (l : List α) (h : ∀ x ∈ l, f x = .ok (g x)) : pyMapM f l = .ok (l.map g) := by
  induction l with
  | nil => rfl
  | cons x xs ih =>
    have hx := h x (List.mem_cons_self x xs)
    have ihx := ih fun y hy => h y (List.mem_cons_of_mem x hy)
    simp [pyMapM, hx, ihx]

/-- If some element makes `f` raise, `pyMapM f` raises. -/
theorem pyMapM_error_of_exists {α β : Type} (f : α → Except PyExn β)
    (l : List α) (h : ∃ x ∈ l, ∃ e, f x = .error e) :
    ∃ e, pyMapM f l = .error e := by
  induction l with
  | nil => simp at h
  | cons x xs ih =>
    rcases h with ⟨y, hy, e, hfy⟩
    rcases List.mem_cons.mp hy with rfl | hmem
    · exact ⟨e, by simp [pyMapM, hfy]⟩
    · cases hfx : f x with
      | error e2 => exact ⟨e2, by simp [pyMapM, hfx]⟩
      | ok yv =>
        rcases ih ⟨y, hmem, e, hfy⟩ with ⟨e3, h3⟩
        exact ⟨e3, by simp [pyMapM, hfx, h3]⟩

/-! ## Claim theorems -/

/-- C3: after `FinnhubDB.create_tables` completes, all four tables (stock
anagraphics, stock price history, FX anagraphics, FX price history) exist
and contain zero rows, whatever their prior state — just created or
already populated from an earlier run. -/
theorem C3_create_tables_resets_all_tables (db : DBState) :
    (create_tables db).anagraphic_table = some [] ∧
    (create_tables db).stock_historical_data = some [] ∧
    (create_tables db).fxanagraphic_data = some [] ∧
    (create_tables db).fxhistorical_data = some [] := by
  simp [create_tables, createIfAbsent, clearTable]

/-- C8: in the query-parameter merge of the client's operations (here
`stock_candles`), an additional keyword parameter wins over a required
positional field of the same name, because `_merge_two_dicts` applies the
additional parameters as an update over the required ones; a name the
caller does not override keeps its positional value. -/
theorem C8_kwargs_override_required_params {V : Type}
    (symbol resolution from_ to_ : V) (kwargs : String → Option V) :
    (∀ k v, kwargs k = some v →
      stock_candles_params symbol resolution from_ to_ kwargs k = some v) ∧
    (kwargs "symbol" = none →
      stock_candles_params symbol resolution from_ to_ kwargs "symbol" = some symbol) ∧
    (kwargs "resolution" = none →
      stock_candles_params symbol resolution from_ to_ kwargs "resolution" = some resolution) := by
  refine ⟨fun k v hk => ?_, fun h => ?_, fun h => ?_⟩
  · simp [stock_candles_params, merge_two_dicts, hk]
  · simp [stock_candles_params, merge_two_dicts, dictOfPairs, h, List.lookup]
  · simp [stock_candles_params, merge_two_dicts, dictOfPairs, h, List.lookup]

/-- C8 witness: with `kwargs = ("symbol" ↦ 99)` the outgoing `symbol`
parameter is 99, not the positional 1, and `resolution` keeps its
positional value. -/
theorem C8_witness :
    (fun k => if k = "symbol" then some 99 else none : String → Option Nat) "symbol" = some 99 ∧
    stock_candles_params 1 2 3 4
      (fun k => if k = "symbol" then some 99 else none) "symbol" = some 99 ∧
    stock_candles_params 1 2 3 4
      (fun k => if k = "symbol" then some 99 else none) "resolution" = some 2 :=
  ⟨by decide,
   (C8_kwargs_override_required_params 1 2 3 4
      (fun k => if k = "symbol" then some 99 else none)).1 "symbol" 99 (by decide),
   (C8_kwargs_override_required_params 1 2 3 4
      (fun k => if k = "symbol" then some 99 else none)).2.2 (by decide)⟩

/-- C2 (amended): for every HTTP response with a non-success status whose
body either is not parseable JSON or parses to a JSON object, response
handling raises the API error kind (never the request error kind)
regardless of the body's content type, and the raised error carries the
HTTP status code together with the vendor message taken from the object's
`"error"` field, or a fallback message when the body is not parseable JSON
or the object lacks an `"error"` field.  (The restriction to
unparseable-or-object bodies is forced: a body parsing to a bare JSON
scalar makes the exception constructor itself raise TypeError, see the
counterexample.) -/
theorem C2_non_success_raises_api_error (r : HttpResponse)
    (hok : r.ok = false)
    (hbody : r.jsonBody = none ∨ ∃ kvs, r.jsonBody = some (.obj kvs)) :
    ∃ e, handle_response r = .apiError e ∧ e.status_code = r.status_code ∧
      (r.jsonBody = none →
        e.message = .str ("JSON error message from Finnhub: " ++ r.text)) ∧
      (∀ kvs v, r.jsonBody = some (.obj kvs) → kvs.lookup "error" = some v →
        e.message = v) ∧
      (∀ kvs, r.jsonBody = some (.obj kvs) → kvs.lookup "error" = none →
        e.message = .str "Wrong json format from FinnhubAPI") := by
  rcases hbody with hnone | ⟨kvs, hobj⟩
  · refine ⟨⟨0, .str ("JSON error message from Finnhub: " ++ r.text), r.status_code⟩, ?_, rfl, ?_, ?_, ?_⟩
    · simp [handle_response, hok, buildAPIException, apiExceptionMessage, hnone]
    · intro _; rfl
    · intro kvs v hsome _; rw [hnone] at hsome; cases hsome
    · intro kvs hsome _; rw [hnone] at hsome; cases hsome
  · cases hlk : kvs.lookup "error" with
    | some v =>
      refine ⟨⟨0, v, r.status_code⟩, ?_, rfl, ?_, ?_, ?_⟩
      · simp [handle_response, hok, buildAPIException, apiExceptionMessage, hobj,
              pyContains, hlk, pySubscript]
      · intro hnone; rw [hnone] at hobj; cases hobj
      · intro kvs2 v2 hsome hlk2
        rw [hobj] at hsome
        cases hsome
        rw [hlk] at hlk2
        cases hlk2
        rfl
      · intro kvs2 hsome hlk2
        rw [hobj] at hsome
        cases hsome
        rw [hlk] at hlk2
        cases hlk2
    | none =>
      refine ⟨⟨0, .str "Wrong json format from FinnhubAPI", r.status_code⟩, ?_, rfl, ?_, ?_, ?_⟩
      · simp [handle_response, hok, buildAPIException, apiExceptionMessage, hobj,
              pyContains, hlk]
      · intro hnone; rw [hnone] at hobj; cases hobj
      · intro kvs2 v2 hsome hlk2
        rw [hobj] at hsome
        cases hsome
        rw [hlk] at hlk2
        cases hlk2
      · intro kvs2 hsome hlk2; rfl

/-- C2 counterexample: a non-success response whose body is the parseable
JSON number `5` does not raise the API error kind — `"error" not in 5`
raises TypeError inside `FinnhubAPIException.__init__`, so a bare TypeError
escapes instead, refuting the claim's "for every HTTP response with a
non-success status ... raises the API error kind". -/
theorem C2_counterexample :
    handle_response numBodyResponse = .pyError .typeError :=
  rfl

/-- C2 witness: on a concrete non-success response with unparseable body,
the handler raises the API error carrying status 404 and the fallback
message naming the raw text. -/
theorem C2_witness :
    textBodyResponse.ok = false ∧
    ∃ e, handle_response textBodyResponse = .apiError e ∧
      e.status_code = textBodyResponse.status_code ∧
      (textBodyResponse.jsonBody = none →
        e.message = .str ("JSON error message from Finnhub: " ++ textBodyResponse.text)) ∧
      (∀ kvs v, textBodyResponse.jsonBody = some (.obj kvs) →
        kvs.lookup "error" = some v → e.message = v) ∧
      (∀ kvs, textBodyResponse.jsonBody = some (.obj kvs) →
        kvs.lookup "error" = none →
        e.message = .str "Wrong json format from FinnhubAPI") :=
  ⟨rfl, C2_non_success_raises_api_error textBodyResponse rfl (Or.inl rfl)⟩

/-- C7: for every HTTP response with a success status, the handler returns
the parsed JSON value when the content type is JSON (raising a request
error carrying the raw text when that body does not parse), returns the
exact body text unchanged when the content type is CSV or plain text, and
raises a request error carrying the raw text for any other content type.
The content-type tests are the source's substring tests, applied in source
order. -/
theorem C7_success_content_type_dispatch (r : HttpResponse) (hok : r.ok = true) :
    (strContains r.contentType "application/json" = true →
      (∀ j, r.jsonBody = some j → handle_response r = .value (.json j)) ∧
      (r.jsonBody = none →
        handle_response r = .requestError ("Invalid Response: " ++ r.text))) ∧
    (strContains r.contentType "application/json" = false →
      strContains r.contentType "text/csv" = true →
      handle_response r = .value (.text r.text)) ∧
    (strContains r.contentType "application/json" = false →
      strContains r.contentType "text/csv" = false →
      strContains r.contentType "text/plain" = true →
      handle_response r = .value (.text r.text)) ∧
    (strContains r.contentType "application/json" = false →
      strContains r.contentType "text/csv" = false →
      strContains r.contentType "text/plain" = false →
      handle_response r = .requestError ("Invalid Response: " ++ r.text)) := by
  refine ⟨fun hj => ⟨fun j hb => ?_, fun hb => ?_⟩,
          fun hj hc => ?_, fun hj hc hp => ?_, fun hj hc hp => ?_⟩
  · simp [handle_response, hok, hj, hb]
  · simp [handle_response, hok, hj, hb]
  · simp [handle_response, hok, hj, hc]
  · simp [handle_response, hok, hj, hc, hp]
  · simp [handle_response, hok, hj, hc, hp]

/-- C7 witness: a concrete 200 response with JSON content type and body
`[]` returns the parsed empty array. -/
theorem C7_witness :
    okJsonResponse.ok = true ∧
    strContains okJsonResponse.contentType "application/json" = true ∧
    handle_response okJsonResponse = .value (.json (.arr [])) :=
  ⟨rfl, rfl,
   ((C7_success_content_type_dispatch okJsonResponse rfl).1 rfl).1 (.arr []) rfl⟩

/-- C5: a constituent whose stock profile response is the empty structure
`{}` contributes zero anagraphic rows in Phase 1 and causes no failure:
the first attempt succeeds with no row (one fetch, no sleep), and the
phase's batch over `i :: rest` is exactly the batch over `rest`. -/
theorem C5_empty_profile_skipped (spo : Json → Nat → Except PyExn Json)
    (i : Json) (rest : List Json) (h : spo i 0 = .ok (.obj [])) :
    phase1Step (spo i) = (.ok none, 1, 0) ∧
    (∀ rs, phase1 spo rest = .ok rs → phase1 spo (i :: rest) = .ok rs) := by
  have hstep : phase1Attempt (spo i) 0 = .ok none := by
    simp [phase1Attempt, h, profileRow, isEmptyDict]
  refine ⟨by simp [phase1Step, hstep], fun rs hrs => ?_⟩
  simp [phase1, phase1Step, hstep, hrs]

/-- C5 witness: with an oracle always answering `{}`, the single
constituent `"AAA"` yields an empty Phase 1 batch without failure. -/
theorem C5_witness :
    emptyProfileOracle (.str "AAA") 0 = .ok (.obj []) ∧
    phase1Step (emptyProfileOracle (.str "AAA")) = (.ok none, 1, 0) ∧
    phase1 emptyProfileOracle [.str "AAA"] = .ok [] :=
  ⟨rfl,
   (C5_empty_profile_skipped emptyProfileOracle (.str "AAA") [] rfl).1,
   (C5_empty_profile_skipped emptyProfileOracle (.str "AAA") [] rfl).2 [] rfl⟩

/-- Bind of a successful `Except` computation reduces. -/
theorem exceptBind_ok {α β : Type} (a : α) (f : α → Except PyExn β) :
    (Except.ok a : Except PyExn α) >>= f = f a := rfl

/-- Map over a successful `Except` computation reduces. -/
theorem exceptMap_ok {α β : Type} (a : α) (f : α → β) :
    f <$> (Except.ok a : Except PyExn α) = Except.ok (f a) := rfl

/-- `pure` into `Except` is `ok`. -/
theorem exceptPure_ok {α : Type} (a : α) :
    (pure a : Except PyExn α) = Except.ok a := rfl

/-- C1: for every stock candle response whose `c`/`h`/`l`/`o`/`t`/`v`
arrays all have the same length `N` (the `t` array holding JSON-number
timestamps), the Phase 2 expansion produces exactly `N` row tuples, the
`k`-th combining the `k`-th element of each array with the constituent the
candles were fetched for (the timestamp entering via `int` conversion and
local-date formatting); embedded in Phase 2, the constituent contributes
exactly those rows to the batch. -/
theorem C1_phase2_candle_rows (localDate : Int → String) (ticker stock : Json)
    (cs hs ls os ts vs : List Json) (N : Nat)
    (hc : pySubscript stock "c" = .ok (.arr cs))
    (hh : pySubscript stock "h" = .ok (.arr hs))
    (hl : pySubscript stock "l" = .ok (.arr ls))
    (ho : pySubscript stock "o" = .ok (.arr os))
    (ht : pySubscript stock "t" = .ok (.arr ts))
    (hv : pySubscript stock "v" = .ok (.arr vs))
    (hcN : cs.length = N) (hhN : hs.length = N) (hlN : ls.length = N)
    (hoN : os.length = N) (htN : ts.length = N) (hvN : vs.length = N)
    (hts : ∀ x ∈ ts, ∃ q : Rat, x = .num q) :
    ∃ rows, candleRows localDate ticker stock = .ok rows ∧
      rows.length = N ∧
      (∀ k, k < N →
        ∃ c h l o t v tn, cs[k]? = some c ∧ hs[k]? = some h ∧ ls[k]? = some l ∧
          os[k]? = some o ∧ ts[k]? = some t ∧ vs[k]? = some v ∧
          pyToInt t = .ok tn ∧
          rows[k]? = some (ticker, c, h, l, o, localDate tn, v)) ∧
      (∀ (candles : Json → Nat → Except PyExn Json) (rest : List Json)
          (rest_rows : List StockPriceRow),
        candles ticker 0 = .ok stock →
        phase2 candles localDate rest = .ok rest_rows →
        phase2 candles localDate (ticker :: rest) = .ok (rows ++ rest_rows)) := by
  set g : Nat → StockPriceRow := fun k =>
    (ticker, cs.getD k .null, hs.getD k .null, ls.getD k .null, os.getD k .null,
     localDate (jsonTrunc (ts.getD k .null)), vs.getD k .null) with hgdef
  have hg : ∀ k ∈ List.range N, candleRow localDate ticker stock k = .ok (g k) := by
    intro k hk
    have hkN : k < N := List.mem_range.mp hk
    have hkc : k < cs.length := by rw [hcN]; exact hkN
    have hkh : k < hs.length := by rw [hhN]; exact hkN
    have hkl : k < ls.length := by rw [hlN]; exact hkN
    have hko : k < os.length := by rw [hoN]; exact hkN
    have hkt : k < ts.length := by rw [htN]; exact hkN
    have hkv : k < vs.length := by rw [hvN]; exact hkN
    obtain ⟨q, hq⟩ := hts (ts.getD k .null)
      (by rw [List.getD_eq_getElem ts Json.null hkt]; exact List.getElem_mem hkt)
    have ec : pyIndex (.arr cs) k = .ok (cs.getD k .null) := by
      simp [pyIndex, hkc, List.getD_eq_getElem cs Json.null hkc]
    have eh : pyIndex (.arr hs) k = .ok (hs.getD k .null) := by
      simp [pyIndex, hkh, List.getD_eq_getElem hs Json.null hkh]
    have el : pyIndex (.arr ls) k = .ok (ls.getD k .null) := by
      simp [pyIndex, hkl, List.getD_eq_getElem ls Json.null hkl]
    have eo : pyIndex (.arr os) k = .ok (os.getD k .null) := by
      simp [pyIndex, hko, List.getD_eq_getElem os Json.null hko]
    have et : pyIndex (.arr ts) k = .ok (ts.getD k .null) := by
      simp [pyIndex, hkt, List.getD_eq_getElem ts Json.null hkt]
    have ev : pyIndex (.arr vs) k = .ok (vs.getD k .null) := by
      simp [pyIndex, hkv, List.getD_eq_getElem vs Json.null hkv]
    simp only [candleRow, hc, hh, hl, ho, ht, hv, exceptBind_ok, ec, eh, el, eo,
               et, ev, hq, pyToInt, jsonTrunc, exceptMap_ok, exceptPure_ok, hgdef]
  have hmap := pyMapM_ok_of_forall (candleRow localDate ticker stock) g (List.range N) hg
  have hrows : candleRows localDate ticker stock = .ok ((List.range N).map g) := by
    simp only [candleRows, hc, exceptBind_ok, pyLen, hcN, hmap]
  refine ⟨(List.range N).map g, hrows, by simp, fun k hkN => ?_, fun candles rest rest_rows hcand hrest => ?_⟩
  · have hkc : k < cs.length := by rw [hcN]; exact hkN
    have hkh : k < hs.length := by rw [hhN]; exact hkN
    have hkl : k < ls.length := by rw [hlN]; exact hkN
    have hko : k < os.length := by rw [hoN]; exact hkN
    have hkt : k < ts.length := by rw [htN]; exact hkN
    have hkv : k < vs.length := by rw [hvN]; exact hkN
    obtain ⟨q, hq⟩ := hts (ts.getD k .null)
      (by rw [List.getD_eq_getElem ts Json.null hkt]; exact List.getElem_mem hkt)
    refine ⟨cs.getD k .null, hs.getD k .null, ls.getD k .null, os.getD k .null,
            ts.getD k .null, vs.getD k .null, jsonTrunc (ts.getD k .null),
            ?_, ?_, ?_, ?_, ?_, ?_, ?_, ?_⟩
    · rw [List.getElem?_eq_getElem hkc, List.getD_eq_getElem cs Json.null hkc]
    · rw [List.getElem?_eq_getElem hkh, List.getD_eq_getElem hs Json.null hkh]
    · rw [List.getElem?_eq_getElem hkl, List.getD_eq_getElem ls Json.null hkl]
    · rw [List.getElem?_eq_getElem hko, List.getD_eq_getElem os Json.null hko]
    · rw [List.getElem?_eq_getElem hkt, List.getD_eq_getElem ts Json.null hkt]
    · rw [List.getElem?_eq_getElem hkv, List.getD_eq_getElem vs Json.null hkv]
    · rw [hq]; simp [pyToInt, jsonTrunc]
    · simp [List.getElem?_map, List.getElem?_range hkN, hgdef]
  · simp [phase2, fetchWithRetry, hcand, hrows, hrest]

/-- C1 witness: the concrete two-day candle response yields exactly two
rows for constituent `"AAA"`. -/
theorem C1_witness :
    ∃ rows, candleRows constDate (.str "AAA") twoDayCandles = .ok rows ∧
      rows.length = 2 := by
  obtain ⟨rows, h1, h2, -, -⟩ :=
    C1_phase2_candle_rows constDate (.str "AAA") twoDayCandles
      [.num 1, .num 2] [.num 3, .num 4] [.num 5, .num 6] [.num 7, .num 8]
      [.num 0, .num 86400] [.num 9, .num 10] 2
      rfl rfl rfl rfl rfl rfl rfl rfl rfl rfl rfl rfl
      (by intro x hx; simp at hx; rcases hx with rfl | rfl
          exacts [⟨0, rfl⟩, ⟨86400, rfl⟩])
  exact ⟨rows, h1, h2⟩

/-- `sp == {}` holds exactly on the empty JSON object. -/
theorem isEmptyDict_iff : ∀ sp : Json, isEmptyDict sp = true ↔ sp = Json.obj []
  | .null => by simp [isEmptyDict]
  | .bool _ => by simp [isEmptyDict]
  | .num _ => by simp [isEmptyDict]
  | .str _ => by simp [isEmptyDict]
  | .arr _ => by simp [isEmptyDict]
  | .obj [] => by simp [isEmptyDict]
  | .obj (_ :: _) => by simp [isEmptyDict]

/-- C9: in Phase 1 only a profile that is exactly the empty structure is
skipped; a non-empty profile missing a required field raises during row
construction, that exception is caught by the same sleep-and-retry path as
a fetch failure, and when the retried profile's row construction raises
again the exception propagates and aborts the phase. -/
theorem C9_missing_field_retries_then_aborts :
    (∀ sp, profileRow sp = .ok none ↔ sp = Json.obj []) ∧
    (∀ kvs : List (String × Json), kvs ≠ [] →
      (∃ fld ∈ profileFields, kvs.lookup fld = none) →
      ∃ e, profileRow (.obj kvs) = .error e) ∧
    (∀ (spo : Json → Nat → Except PyExn Json) (i : Json) (rest : List Json)
        (sp0 sp1 : Json) (e0 e1 : PyExn),
      spo i 0 = .ok sp0 → profileRow sp0 = .error e0 →
      spo i 1 = .ok sp1 → profileRow sp1 = .error e1 →
      phase1Step (spo i) = (.error e1, 2, 1) ∧ phase1 spo (i :: rest) = .error e1) := by
  refine ⟨fun sp => ⟨fun h => ?_, fun h => ?_⟩,
          fun kvs hne ⟨fld, hmem, hlk⟩ => ?_,
          fun spo i rest sp0 sp1 e0 e1 h0 hr0 h1 hr1 => ?_⟩
  · cases hemp : isEmptyDict sp
    · rw [profileRow, if_neg (by simp [hemp])] at h
      cases hm : pyMapM (pySubscript sp) profileFields <;> rw [hm] at h <;> cases h
    · exact (isEmptyDict_iff sp).mp hemp
  · rw [h, profileRow, if_pos (by simp [isEmptyDict])]
  · have hemp : isEmptyDict (.obj kvs) = false := by
      cases kvs with
      | nil => exact absurd rfl hne
      | cons a l => rfl
    obtain ⟨e, he⟩ := pyMapM_error_of_exists (pySubscript (.obj kvs)) profileFields
      ⟨fld, hmem, .keyError fld, by simp [pySubscript, hlk]⟩
    exact ⟨e, by rw [profileRow, if_neg (by simp [hemp]), he]⟩
  · have ha0 : phase1Attempt (spo i) 0 = .error e0 := by
      simp [phase1Attempt, h0, hr0]
    have ha1 : phase1Attempt (spo i) 1 = .error e1 := by
      simp [phase1Attempt, h1, hr1]
    exact ⟨by simp [phase1Step, ha0, ha1], by simp [phase1, phase1Step, ha0, ha1]⟩

/-- C9 witness: the concrete non-empty profile `("ticker" ↦ "A")` lacks
`country`; both attempts for constituent `"A"` raise `KeyError("country")`
after one sleep and one retry, aborting the phase, while the empty profile
is skipped without error. -/
theorem C9_witness :
    profileRow (.obj []) = .ok none ∧
    phase1Step (gappyProfileOracle (.str "A")) = (.error (.keyError "country"), 2, 1) ∧
    phase1 gappyProfileOracle [.str "A"] = .error (.keyError "country") := by
  refine ⟨(C9_missing_field_retries_then_aborts.1 (.obj [])).mpr rfl, ?_, ?_⟩
  · exact (C9_missing_field_retries_then_aborts.2.2 gappyProfileOracle (.str "A") []
      (.obj [("ticker", .str "A")]) (.obj [("ticker", .str "A")])
      (.keyError "country") (.keyError "country") rfl rfl rfl rfl).1
  · exact (C9_missing_field_retries_then_aborts.2.2 gappyProfileOracle (.str "A") []
      (.obj [("ticker", .str "A")]) (.obj [("ticker", .str "A")])
      (.keyError "country") (.keyError "country") rfl rfl rfl rfl).2

/-- C4: in Phases 1 and 2 a fetch failure for a constituent triggers
exactly one sleep and exactly one retry (two fetch calls, one sleep), and
a failure of the retried attempt propagates, aborting the phase and the
run; in Phase 3 there is no retry at all, so a failure of the exchange
fetch or of the first symbol-list fetch aborts immediately, and a Phase 3
failure inside `store_data` aborts the run right after the Phase 2
insert. -/
theorem C4_single_retry_in_phases_1_2_none_in_3 :
    (∀ (profile : Nat → Except PyExn Json) e, profile 0 = .error e →
      phase1Step profile = (phase1Attempt profile 1, 2, 1)) ∧
    (∀ (spo : Json → Nat → Except PyExn Json) (i : Json) rest e0 e1,
      phase1Attempt (spo i) 0 = .error e0 → phase1Attempt (spo i) 1 = .error e1 →
      phase1 spo (i :: rest) = .error e1) ∧
    (∀ (fetch : Nat → Except PyExn Json) e, fetch 0 = .error e →
      fetchWithRetry fetch = (fetch 1, 2, 1)) ∧
    (∀ (co : Json → Nat → Except PyExn Json) (localDate : Int → String)
        (i : Json) rest e0 e1,
      co i 0 = .error e0 → co i 1 = .error e1 →
      phase2 co localDate (i :: rest) = .error e1) ∧
    (∀ (fs : Json → Except PyExn Json) e,
      phase3 (.error e) fs = .error e) ∧
    (∀ (fe : Except PyExn Json) (fs : Json → Except PyExn Json)
        (exchanges : Json) (exch : Json) rest e,
      fe = .ok exchanges → pyIter exchanges = .ok (exch :: rest) →
      fs exch = .error e → phase3 fe fs = .error e) ∧
    (∀ (api : ApiOracle) (localDate : Int → String) (db : DBState)
        (sm : String) (fxc : List String) (indx cj : Json)
        (cs : List Json) rows1 rows2 e,
      api.index_constituents ("^" ++ sm) = .ok indx →
      pySubscript indx "constituents" = .ok cj →
      pyIter cj = .ok cs →
      phase1 api.stock_profile cs = .ok rows1 →
      phase2 api.stock_candles localDate cs = .ok rows2 →
      phase3 api.forex_exchanges api.fx_symbols = .error e →
      store_data api localDate db sm fxc =
        (insert_stock_prices (insert_stock_anagraphic db rows1) rows2, some e)) := by
  refine ⟨fun profile e h => ?_, fun spo i rest e0 e1 h0 h1 => ?_,
          fun fetch e h => ?_, fun co localDate i rest e0 e1 h0 h1 => ?_,
          fun fs e => ?_, fun fe fs exchanges exch rest e hfe hit hfs => ?_,
          fun api localDate db sm fxc indx cj cs rows1 rows2 e hidx hsub hit h1 h2 h3 => ?_⟩
  · have ha : phase1Attempt profile 0 = .error e := by simp [phase1Attempt, h]
    simp [phase1Step, ha]
  · simp [phase1, phase1Step, h0, h1]
  · simp [fetchWithRetry, h]
  · simp [phase2, fetchWithRetry, h0, h1]
  · simp [phase3]
  · simp [phase3, hfe, hit, phase3.phase3Loop, hfs]
  · simp [store_data, runPhase, hidx, hsub, hit, h1, h2, h3]

/-- C4 witness: with an oracle failing on attempt 0 the step makes two
fetches and one sleep; with an always-failing oracle both phases abort
with the retried exception; Phase 3 aborts immediately both on a failing
exchange fetch and inside a concrete `store_data` run. -/
theorem C4_witness :
    phase1Step failOnceOracle = (phase1Attempt failOnceOracle 1, 2, 1) ∧
    phase1 alwaysFailOracle [.str "A"] = .error .valueError ∧
    fetchWithRetry failOnceOracle = (failOnceOracle 1, 2, 1) ∧
    phase2 alwaysFailOracle constDate [.str "A"] = .error .valueError ∧
    phase3 (.error .typeError) (fun _ => .ok (.arr [])) = .error .typeError ∧
    store_data phase3FailingApi constDate emptyDB "NDX" [] =
      (insert_stock_prices (insert_stock_anagraphic emptyDB []) [], some .typeError) := by
  refine ⟨C4_single_retry_in_phases_1_2_none_in_3.1 failOnceOracle .typeError rfl,
          C4_single_retry_in_phases_1_2_none_in_3.2.1 alwaysFailOracle (.str "A") []
            .valueError .valueError rfl rfl,
          C4_single_retry_in_phases_1_2_none_in_3.2.2.1 failOnceOracle .typeError rfl,
          C4_single_retry_in_phases_1_2_none_in_3.2.2.2.1 alwaysFailOracle constDate
            (.str "A") [] .valueError .valueError rfl rfl,
          C4_single_retry_in_phases_1_2_none_in_3.2.2.2.2.1 (fun _ => .ok (.arr []))
            .typeError,
          C4_single_retry_in_phases_1_2_none_in_3.2.2.2.2.2.2 phase3FailingApi constDate
            emptyDB "NDX" [] (.obj [("constituents", .arr [])]) (.arr []) [] [] []
            .typeError rfl rfl rfl rfl rfl rfl⟩

/-- Characterization of the Phase 4 inner loop when every match test
evaluates cleanly and every matching row's fetch and expansion succeed:
one fetch per matching row, rows concatenated in order. -/
theorem phase4Pair_eq_spec (fc : Json → Except PyExn Json) (localDate : Int → String)
    (f : String) (hist : FxAnaRow → Json) (rows : FxAnaRow → List FxPriceRow) :
    ∀ ana : List FxAnaRow,
      (∀ j ∈ ana, fxMatch f j = .ok (fxMatchB f j)) →
      (∀ j ∈ ana, fxMatchB f j = true →
        fc j.2.2 = .ok (hist j) ∧ fxCandleRows localDate f (hist j) = .ok (rows j)) →
      phase4Pair fc localDate f ana =
        .ok (((ana.filter (fxMatchB f)).map rows).flatten,
             (ana.filter (fxMatchB f)).map (fun j => j.2.2)) := by
  intro ana
  induction ana with
  | nil => intro _ _; rfl
  | cons j rest ih =>
    intro hclean hfetch
    have hj := hclean j (List.mem_cons_self j rest)
    have ihr := ih (fun y hy => hclean y (List.mem_cons_of_mem j hy))
                   (fun y hy hb => hfetch y (List.mem_cons_of_mem j hy) hb)
    cases hb : fxMatchB f j
    · rw [hb] at hj
      simp [phase4Pair, hj, ihr, List.filter_cons, hb]
    · rw [hb] at hj
      obtain ⟨hfc, hrows⟩ := hfetch j (List.mem_cons_self j rest) hb
      simp [phase4Pair, hj, hfc, hrows, ihr, List.filter_cons, hb]

/-- C6: a requested currency pair with no entry in the collected FX
anagraphic listing whose display symbol equals the pair and whose vendor
symbol indicates the FX market category (i.e. the source's match condition
evaluates to false on every row) triggers no candle fetch, produces zero
FX price rows, and does not fail: Phase 4 over `f :: rest` equals Phase 4
over `rest`. -/
theorem C6_unmatched_fx_pair_skipped (fc : Json → Except PyExn Json)
    (localDate : Int → String) (f : String) (ana : List FxAnaRow)
    (h : ∀ j ∈ ana, fxMatch f j = .ok false) :
    phase4Pair fc localDate f ana = .ok ([], []) ∧
    (∀ rest rest_rows, phase4 fc localDate ana rest = .ok rest_rows →
      phase4 fc localDate ana (f :: rest) = .ok rest_rows) := by
  have hmain : ∀ l : List FxAnaRow, (∀ j ∈ l, fxMatch f j = .ok false) →
      phase4Pair fc localDate f l = .ok ([], []) := by
    intro l
    induction l with
    | nil => intro _; rfl
    | cons j rest ih =>
      intro hl
      have hj := hl j (List.mem_cons_self j rest)
      have ihr := ih fun y hy => hl y (List.mem_cons_of_mem j hy)
      simp [phase4Pair, hj, ihr]
  refine ⟨hmain ana h, fun rest rest_rows hrest => ?_⟩
  simp [phase4, hmain ana h, hrest]

/-- C6 witness: requesting `EUR/USD` against a listing holding only the
`USD/JPY` row fetches nothing, yields zero rows, and leaves the phase
result that of the remaining pairs. -/
theorem C6_witness :
    phase4Pair oneDayFxOracle constDate "EUR/USD" [yenAnaRow] = .ok ([], []) ∧
    phase4 oneDayFxOracle constDate [yenAnaRow] ["EUR/USD"] = .ok [] := by
  have h : ∀ j ∈ [yenAnaRow], fxMatch "EUR/USD" j = .ok false := by
    intro j hj
    simp at hj
    subst hj
    rfl
  refine ⟨(C6_unmatched_fx_pair_skipped oneDayFxOracle constDate "EUR/USD" [yenAnaRow] h).1,
          (C6_unmatched_fx_pair_skipped oneDayFxOracle constDate "EUR/USD" [yenAnaRow] h).2
            [] [] rfl⟩

/-- C10: in Phase 4 the candle fetch happens once per matching FX
anagraphic row, not once per requested pair: over a listing in which the
same matching row appears twice, the series is fetched twice (two entries
in the fetch log) and the per-day rows are appended twice, duplicating
them in the batch. -/
theorem C10_fetch_once_per_matching_row (fc : Json → Except PyExn Json)
    (localDate : Int → String) (f : String) (hist : FxAnaRow → Json)
    (rows : FxAnaRow → List FxPriceRow) (ana : List FxAnaRow)
    (hclean : ∀ j ∈ ana, fxMatch f j = .ok (fxMatchB f j))
    (hfetch : ∀ j ∈ ana, fxMatchB f j = true →
      fc j.2.2 = .ok (hist j) ∧ fxCandleRows localDate f (hist j) = .ok (rows j)) :
    phase4Pair fc localDate f ana =
      .ok (((ana.filter (fxMatchB f)).map rows).flatten,
           (ana.filter (fxMatchB f)).map (fun j => j.2.2)) ∧
    (∀ j, ana = [j, j] → fxMatchB f j = true →
      phase4Pair fc localDate f ana = .ok (rows j ++ rows j, [j.2.2, j.2.2])) := by
  have hmain := phase4Pair_eq_spec fc localDate f hist rows ana hclean hfetch
  refine ⟨hmain, fun j hana hb => ?_⟩
  subst hana
  rw [hmain]
  simp [List.filter_cons, hb]

/-- C10 witness: the matching `EUR/USD` row listed twice makes Phase 4
fetch the same vendor symbol twice and duplicate the one-day rows. -/
theorem C10_witness :
    phase4Pair oneDayFxOracle constDate "EUR/USD" [euroAnaRow, euroAnaRow] =
      .ok (oneDayFxRows ++ oneDayFxRows, [euroAnaRow.2.2, euroAnaRow.2.2]) := by
  have hclean : ∀ j ∈ [euroAnaRow, euroAnaRow],
      fxMatch "EUR/USD" j = .ok (fxMatchB "EUR/USD" j) := by
    intro j hj
    simp at hj
    subst hj
    rfl
  have hfetch : ∀ j ∈ [euroAnaRow, euroAnaRow], fxMatchB "EUR/USD" j = true →
      oneDayFxOracle j.2.2 = .ok ((fun _ => oneDayFxCandles) j) ∧
      fxCandleRows constDate "EUR/USD" ((fun _ => oneDayFxCandles) j) =
        .ok ((fun _ => oneDayFxRows) j) := by
    intro j hj _
    simp at hj
    subst hj
    exact ⟨rfl, rfl⟩
  exact (C10_fetch_once_per_matching_row oneDayFxOracle constDate "EUR/USD"
    (fun _ => oneDayFxCandles) (fun _ => oneDayFxRows) [euroAnaRow, euroAnaRow]
    hclean hfetch).2 euroAnaRow rfl rfl
